import Mathlib

/-!
# Verification of the SmartMove dashboard data-preparation pipeline

Shallow embedding of `src/dashboard_streamlit_app.py`.  The embedding models
the pandas/geopandas data as tables of association-list rows:

* a `Cell` is a loaded tabular value: `na` models a missing value (pandas
  `NaN`); `txt s n` models a value whose textual content is `s` and whose
  numeric reading (the result of `pd.to_numeric(..., errors='coerce')`) is
  `n`, with `none` for an unparseable value; `numv q` models a definitely
  numeric value.  Machine floats are abstracted by exact rationals `ℚ`.
* a `Geometry` is abstracted by its centroid: `Geometry.pt x y` stands for a
  polygon whose centroid has x-coordinate (longitude) `x` and y-coordinate
  (latitude) `y` in the table's coordinate reference system; `Geometry.empty`
  stands for an empty geometry, whose centroid coordinates are `NaN`
  (modelled as absent).  Reprojection (`GeoDataFrame.to_crs`) is an external
  library transformation, modelled as an opaque coordinate map supplied by
  the environment (`World.reproj`) acting on the stored centroid.
* column assignment `df[c] = series` is modelled by `setCell`, which
  overwrites the binding for `c` when present and appends it otherwise, so
  that — as in pandas — an assigned column is always present afterwards.
* fallible steps (`pd.read_csv`, `gpd.read_file`) are modelled as
  `Except String` values carried by the environment `World`; the Python
  `except Exception as e` catch-all corresponds to the `.error` cases.
-/

namespace SmartMove

/-- A tabular cell as loaded by pandas.  `na` is a missing value (`NaN`),
`txt s n` a textual value `s` with optional numeric reading `n`, and
`numv q` a numeric value. -/
inductive Cell where
  | na : Cell
  | txt : String → Option ℚ → Cell
  | numv : ℚ → Cell
deriving DecidableEq, Repr

/-- A geometry abstracted by its centroid coordinates (or empty). -/
inductive Geometry where
  | empty : Geometry
  | pt : ℚ → ℚ → Geometry
deriving DecidableEq, Repr

/-- A row of a plain (pandas) table: an association list from column name to
cell. -/
abbrev Cells := List (String × Cell)

/-- A plain pandas `DataFrame`: a column list and rows of cells. -/
structure Table where
  cols : List String
  rows : List Cells
deriving DecidableEq, Repr

/-- A row of a `GeoDataFrame`: a geometry plus its attribute cells. -/
structure GeoRow where
  geom : Geometry
  cells : Cells
deriving DecidableEq, Repr

/-- A geopandas `GeoDataFrame`: a coordinate reference system (none when the
file declares no CRS), a column list and geometry-carrying rows. -/
structure GeoTable where
  crs : Option String
  cols : List String
  rows : List GeoRow
deriving DecidableEq, Repr

/-- Association-list lookup (first binding wins, as column access does on a
well-formed frame). -/
def alookup {α β : Type} [DecidableEq α] : List (α × β) → α → Option β
  | [], _ => none
  | p :: rest, k => if p.1 = k then some p.2 else alookup rest k

/-- Column assignment `df[c] = v` for one row: overwrite the binding when the
column exists, append it otherwise.  The assigned column is always present
afterwards, exactly as in pandas. -/
def setCell (l : Cells) (k : String) (v : Cell) : Cells :=
  if (alookup l k).isSome then l.map (fun p => if p.1 = k then (k, v) else p)
  else l ++ [(k, v)]

/-- Python `str(...)` of a cell; `str(float('nan')) = "nan"`.  The textual
form of a purely numeric cell is irrelevant to every claim and is rendered
as `num/den`. -/
def strOfCell : Cell → String
  | .na => "nan"
  | .txt s _ => s
  | .numv q => toString q.num ++ "/" ++ toString q.den

/-- `pd.to_numeric(v, errors='coerce')` on one cell: `none` models `NaN`. -/
def toNumOpt : Cell → Option ℚ
  | .na => none
  | .txt _ n => n
  | .numv q => some q

/-- Python `str.strip()` on the character list: drop whitespace from both
ends.  (Defined over `List Char` rather than through `String.trim`, whose
byte-position recursion the kernel cannot evaluate; the two agree on the
whitespace characters modelled here.) -/
def trimList (l : List Char) : List Char :=
  ((l.dropWhile Char.isWhitespace).reverse.dropWhile Char.isWhitespace).reverse

/-- Python `str.strip()`. -/
def trimStr (s : String) : String := ⟨trimList s.data⟩

/-- Python `str.lower()`, characterwise.  `Char.toLower` lowercases the
ASCII range; lowercasing of accented letters is abstracted (identical on
both sides of the join, so key matching is unaffected). -/
def lowerStr (s : String) : String := ⟨s.data.map Char.toLower⟩

/-- The key normalisation `.astype(str).str.strip().str.lower()`. -/
def normKey (s : String) : String := lowerStr (trimStr s)

/-- The normalised join key stored in a row's `id_match` column. -/
def rowKey (r : Cells) : String := strOfCell ((alookup r "id_match").getD .na)

-- ==========================================================================
-- Fixed catalogues from the source (lines 14-20, 44-52, 54-56, 89)
-- ==========================================================================

/-- `NOMS_ZONES`: cluster id to display name (source lines 14-20). -/
def NOMS_ZONES : List (Int × String) :=
  [(0, "Residencial / Zona alta"),
   (1, "Centre Neuràlgic"),
   (2, "Vida de Barri"),
   (3, "Perifèria / Zona Tranquila"),
   (4, "Zones d\x27Alta Saturació / Turisme")]

/-- `COLOR_MAP`: zone name to colour (source lines 44-52). -/
def COLOR_MAP : List (String × String) :=
  [("Centre Neuràlgic", "#E63946"),
   ("Perifèria / Zona Tranquila", "#2A9D8F"),
   ("Vida de Barri", "#F4A261"),
   ("Residencial / Zona alta", "#457B9D"),
   ("Zones d\x27Alta Saturació / Turisme", "#9B5DE5"),
   ("General", "#CCCCCC"),
   ("Altres", "#CCCCCC")]

def FILE_CSV : String := "dades_dashboard_completes.csv"

def FILE_GEO : String := "barris.geojson"

/-- The fixed list of expected numeric columns (source line 89). -/
def cols_num : List String :=
  ["res_viajes", "tur_viajes", "in_total_viajes", "num_paradas_tmb", "presion_tmb"]

/-- The ordered candidate name columns for the boundary file (line 81). -/
def geoColCandidates : List String := ["n_barri", "NOM", "barrio", "Name"]

-- ==========================================================================
-- The load_data pipeline (source lines 59-109)
-- ==========================================================================

/-- `df.columns = df.columns.str.strip()` (line 70), applied coherently to
the column list and to the rows' keys. -/
def trimTable (t : Table) : Table :=
  { cols := t.cols.map trimStr
    rows := t.rows.map (List.map (fun p => (trimStr p.1, p.2))) }

/-- Lines 71-73: if `Nom_Barri` is not a column, rename the first column to
`Nom_Barri`. -/
def ensureNomBarri (t : Table) : Table :=
  if "Nom_Barri" ∈ t.cols then t
  else
    match t.cols with
    | [] => t
    | c₀ :: rest =>
      { cols := "Nom_Barri" :: rest
        rows := t.rows.map (List.map (fun p =>
          if p.1 = c₀ then ("Nom_Barri", p.2) else p)) }

/-- Line 76: `df['id_match'] = df['Nom_Barri'].astype(str).str.strip().str.lower()`,
after the column cleanup of lines 70-73. -/
def prepMeasures (t : Table) : Table :=
  let t1 := ensureNomBarri (trimTable t)
  { cols := if "id_match" ∈ t1.cols then t1.cols else t1.cols ++ ["id_match"]
    rows := t1.rows.map (fun r =>
      setCell r "id_match"
        (.txt (normKey (strOfCell ((alookup r "Nom_Barri").getD .na))) none)) }

/-- Line 81: the first candidate name column present in the boundary file. -/
def findGeoCol (g : GeoTable) : Option String :=
  geoColCandidates.find? (fun c => decide (c ∈ g.cols))

/-- Line 83: `gdf['id_match'] = gdf[geo_col].astype(str).str.strip().str.lower()`. -/
def addGeoKey (g : GeoTable) (gc : String) : GeoTable :=
  { g with
    cols := if "id_match" ∈ g.cols then g.cols else g.cols ++ ["id_match"]
    rows := g.rows.map (fun r =>
      let k : Cell := .txt (normKey (strOfCell ((alookup r.cells gc).getD .na))) none
      { r with cells := setCell r.cells "id_match" k }) }

/-- The rows a single boundary row produces under
`gdf.merge(df, on='id_match', how='left')` (line 86): one output row per
matching measures row, or a single row padded with missing values when no
measures row matches.  The shared `id_match` column is kept once (from the
left side). -/
def mergeBlock (dcols : List String) (drows : List Cells) (r : GeoRow) : List GeoRow :=
  match drows.filter (fun rd => rowKey rd == rowKey r.cells) with
  | [] => [{ geom := r.geom
             cells := r.cells ++ (dcols.erase "id_match").map (fun c => (c, Cell.na)) }]
  | ms => ms.map (fun rd =>
      { geom := r.geom, cells := r.cells ++ rd.filter (fun p => p.1 ≠ "id_match") })

/-- Line 86: `merged = gdf.merge(df, on='id_match', how='left')`. -/
def leftMerge (g : GeoTable) (d : Table) : GeoTable :=
  { crs := g.crs
    cols := g.cols ++ d.cols.erase "id_match"
    rows := g.rows.flatMap (mergeBlock d.cols d.rows) }

/-- One step of the numeric-coercion loop (line 92) on one row:
`merged[c] = pd.to_numeric(merged[c], errors='coerce').fillna(0)`. -/
def coerceCellsStep (cells : Cells) (c : String) : Cells :=
  setCell cells c (.numv ((toNumOpt ((alookup cells c).getD .na)).getD 0))

/-- One step of the numeric-coercion loop (line 92) on the whole table. -/
def coerceOne (m : GeoTable) (c : String) : GeoTable :=
  { m with rows := m.rows.map (fun r => { r with cells := coerceCellsStep r.cells c }) }

/-- Lines 89-92: coerce every expected numeric column that is present;
an absent listed column is skipped (not created). -/
def coerceNumerics (m : GeoTable) : GeoTable :=
  cols_num.foldl (fun acc c => if c ∈ acc.cols then coerceOne acc c else acc) m

/-- `astype(int)` on a parsed float value: truncation toward zero. -/
def truncQ (q : ℚ) : Int := q.num.tdiv (q.den : Int)

/-- Line 96: the coerced cluster id of one cell —
`pd.to_numeric(..., errors='coerce').fillna(-1).astype(int)`. -/
def clusterIdOfCell (c : Cell) : Int := truncQ ((toNumOpt c).getD (-1))

/-- Line 97: `.map(NOMS_ZONES).fillna("Altres")` on one id. -/
def zoneFromId (id : Int) : String := (alookup NOMS_ZONES id).getD "Altres"

/-- Lines 95-99: assign the zone-name column `Nom_Zona` (and overwrite the
cluster column with its coerced integer value) when `cluster_kmeans` is a
column, else assign the constant `"General"`. -/
def addZones (m : GeoTable) : GeoTable :=
  if "cluster_kmeans" ∈ m.cols then
    { m with
      cols := if "Nom_Zona" ∈ m.cols then m.cols else m.cols ++ ["Nom_Zona"]
      rows := m.rows.map (fun r =>
        let id := clusterIdOfCell ((alookup r.cells "cluster_kmeans").getD .na)
        let cs := setCell (setCell r.cells "cluster_kmeans" (.numv (id : ℚ))) "Nom_Zona" (.txt (zoneFromId id) none)
        { r with cells := cs }) }
  else
    { m with
      cols := if "Nom_Zona" ∈ m.cols then m.cols else m.cols ++ ["Nom_Zona"]
      rows := m.rows.map (fun r =>
        { r with cells := setCell r.cells "Nom_Zona" (.txt "General" none) }) }

/-- The external CRS transformation acting on a geometry's centroid. -/
def reprojGeom (f : ℚ × ℚ → ℚ × ℚ) : Geometry → Geometry
  | .empty => .empty
  | .pt x y => .pt (f (x, y)).1 (f (x, y)).2

/-- Lines 102-103: `if merged.crs and merged.crs.to_string() != "EPSG:4326":
merged = merged.to_crs(epsg=4326)`.  A frame with no CRS is left alone. -/
def reprojectIfNeeded (f : ℚ × ℚ → ℚ × ℚ) (g : GeoTable) : GeoTable :=
  match g.crs with
  | none => g
  | some s =>
    if s = "EPSG:4326" then g
    else { g with crs := some "EPSG:4326"
                  rows := g.rows.map (fun r => { r with geom := reprojGeom f r.geom }) }

/-- `merged.geometry.centroid.y` restricted to its non-`NaN` entries: empty
geometries contribute `NaN`, which `.mean()` skips. -/
def centroidLats (g : GeoTable) : List ℚ :=
  g.rows.filterMap (fun r => match r.geom with | .pt _ y => some y | .empty => none)

/-- `merged.geometry.centroid.x` restricted to its non-`NaN` entries. -/
def centroidLons (g : GeoTable) : List ℚ :=
  g.rows.filterMap (fun r => match r.geom with | .pt x _ => some x | .empty => none)

/-- Pandas `.mean()`: skips `NaN` entries and is `NaN` (modelled `none`) on
an empty list of values. -/
def meanOpt (l : List ℚ) : Option ℚ :=
  if l.isEmpty then none else some (l.sum / (l.length : ℚ))

/-- Line 106: `(centroid.y.mean(), centroid.x.mean())`. -/
def mapCenter (g : GeoTable) : Option ℚ × Option ℚ :=
  (meanOpt (centroidLats g), meanOpt (centroidLons g))

/-- The environment of one `load_data()` run: whether the two input files
exist, the outcome of reading each (`.error` models a raised exception with
its message), and the external CRS transformation used by `to_crs`. -/
structure World where
  csvExists : Bool
  geoExists : Bool
  csvRead : Except String Table
  geoRead : Except String GeoTable
  reproj : ℚ × ℚ → ℚ × ℚ

/-- Line 63: the missing-files message. -/
def missingMsg : String :=
  "❌ Error: Falten els fitxers de dades (" ++ FILE_CSV ++ " o " ++ FILE_GEO ++ ")."

/-- Line 82: the no-name-column message. -/
def noNameColMsg : String := "Error: El GeoJSON no té columna de noms."

/-- Line 109: the catch-all message wrapping the exception text verbatim. -/
def loadErrMsg (e : String) : String := "Error de càrrega: " ++ e

/-- `load_data()` (source lines 59-109), with success and failure separated
into an `Except`: the existence check, the CSV load and key normalisation,
the boundary load, the name-column search, the left merge, the numeric
coercion, the zone labelling, the CRS normalisation and the map center. -/
def load_data (w : World) : Except String (GeoTable × (Option ℚ × Option ℚ)) :=
  if ¬w.csvExists ∨ ¬w.geoExists then .error missingMsg
  else
    match w.csvRead with
    | .error e => .error (loadErrMsg e)
    | .ok df0 =>
      let df := prepMeasures df0
      match w.geoRead with
      | .error e => .error (loadErrMsg e)
      | .ok g0 =>
        match findGeoCol g0 with
        | none => .error noNameColMsg
        | some gc =>
          let merged := reprojectIfNeeded w.reproj
            (addZones (coerceNumerics (leftMerge (addGeoKey g0 gc) df)))
          .ok (merged, mapCenter merged)

/-- A Python value as returned in the tuple of `load_data` — the shapes the
caller at lines 112-119 can observe. -/
inductive PyVal where
  | pynone : PyVal
  | pystr : String → PyVal
  | pytable : GeoTable → PyVal
  | pypair : Option ℚ → Option ℚ → PyVal
deriving DecidableEq, Repr

/-- Is this Python value a string (`isinstance(x, str)`)? -/
def PyVal.isStr : PyVal → Bool
  | .pystr _ => true
  | _ => false

/-- The literal tuple `load_data()` returns: `(None, message)` on failure and
`(merged, (lat, lon))` on success. -/
def load_data_py (w : World) : PyVal × PyVal :=
  match load_data w with
  | .ok (t, c) => (.pytable t, .pypair c.1 c.2)
  | .error m => (.pynone, .pystr m)

/-- Line 117: `isinstance(gdf, str)` applied to the first component — the
caller's failure test. -/
def callerSeesFailure (w : World) : Bool := (load_data_py w).1.isStr

-- ==========================================================================
-- Derived display computations (source lines 235-239 and 278-337)
-- ==========================================================================

/-- Pandas `Series.quantile(q)` with the default linear interpolation,
skipping `NaN` (the input list holds the non-`NaN` values): with sorted
values `v₀ ≤ … ≤ vₙ₋₁` and `h = (n-1)·q`, the result is
`v⌊h⌋ + (h - ⌊h⌋)·(v⌈h⌉ - v⌊h⌋)`; `NaN` (none) on an empty series. -/
def quantileQ (q : ℚ) (l : List ℚ) : Option ℚ :=
  match List.insertionSort (· ≤ ·) l with
  | [] => none
  | v :: vs =>
    let n := (v :: vs).length
    let h : ℚ := ((n - 1 : ℕ) : ℚ) * q
    let lo : ℕ := (⌊h⌋).toNat
    let hi : ℕ := (⌈h⌉).toNat
    some ((v :: vs).getD lo 0 + (h - (lo : ℚ)) * ((v :: vs).getD hi 0 - (v :: vs).getD lo 0))

/-- The non-`NaN` numeric values of one column, as seen by `.quantile`. -/
def colNumVals (g : GeoTable) (c : String) : List ℚ :=
  g.rows.filterMap (fun r => toNumOpt ((alookup r.cells c).getD .na))

/-- Line 235: `limit_x = gdf['num_paradas_tmb'].quantile(0.90)`. -/
def limit_x (g : GeoTable) : Option ℚ := quantileQ (9/10) (colNumVals g "num_paradas_tmb")

/-- Line 236: `limit_y = gdf['in_total_viajes'].quantile(0.90)`. -/
def limit_y (g : GeoTable) : Option ℚ := quantileQ (9/10) (colNumVals g "in_total_viajes")

/-- Python `a > b` on possibly-`NaN` floats: any comparison with `NaN` is
false. -/
def optGTb : Option ℚ → Option ℚ → Bool
  | some a, some b => decide (b < a)
  | _, _ => false

/-- Line 239, for one row: `x['Nom_Barri'] if (x['in_total_viajes'] > limit_y
or x['num_paradas_tmb'] > limit_x) else ""`. -/
def labelCell (g : GeoTable) (r : GeoRow) : Cell :=
  if optGTb (toNumOpt ((alookup r.cells "in_total_viajes").getD .na)) (limit_y g)
      || optGTb (toNumOpt ((alookup r.cells "num_paradas_tmb").getD .na)) (limit_x g)
  then (alookup r.cells "Nom_Barri").getD .na
  else .txt "" none

/-- Line 239: `gdf['label'] = gdf.apply(..., axis=1)` with the limits of
lines 235-236 computed on the table first. -/
def addLabel (g : GeoTable) : GeoTable :=
  { g with
    cols := if "label" ∈ g.cols then g.cols else g.cols ++ ["label"]
    rows := g.rows.map (fun r => { r with cells := setCell r.cells "label" (labelCell g r) }) }

/-- The sort key of `sort_values('in_total_viajes')` for one row;
`none` models `NaN`. -/
def rankKey (r : GeoRow) : Option ℚ := toNumOpt ((alookup r.cells "in_total_viajes").getD .na)

/-- Row comparison of the ascending sort (`NaN` sorts last,
`na_position='last'`). -/
def ascRowLeB (a b : GeoRow) : Bool :=
  match rankKey a, rankKey b with
  | some x, some y => decide (x ≤ y)
  | some _, none => true
  | none, some _ => false
  | none, none => true

/-- Row comparison of the descending sort (`NaN` sorts last). -/
def descRowLeB (a b : GeoRow) : Bool :=
  match rankKey a, rankKey b with
  | some x, some y => decide (y ≤ x)
  | some _, none => true
  | none, some _ => false
  | none, none => true

/-- The ascending row order as a proposition. -/
def ascRowLe (a b : GeoRow) : Prop := ascRowLeB a b = true

/-- The descending row order as a proposition. -/
def descRowLe (a b : GeoRow) : Prop := descRowLeB a b = true

instance : DecidableRel ascRowLe := fun _ _ => inferInstanceAs (Decidable (_ = true))

instance : DecidableRel descRowLe := fun _ _ => inferInstanceAs (Decidable (_ = true))

/-- Line 281: `df_rank = gdf.sort_values('in_total_viajes',
ascending=True).tail(top_n)` — ascending sort, then the last `n` rows. -/
def df_rank (n : ℕ) (g : GeoTable) : List GeoRow :=
  let s := List.insertionSort ascRowLe g.rows
  s.drop (s.length - n)

/-- Line 337: `df_table = gdf.sort_values('in_total_viajes',
ascending=False).head(top_n)` — descending sort, then the first `n` rows
(the subsequent `[cols_show]` column projection does not affect row count or
order and is not modelled). -/
def df_table (n : ℕ) (g : GeoTable) : List GeoRow :=
  (List.insertionSort descRowLe g.rows).take n

-- ==========================================================================
-- Per-row views of the rowwise pipeline stages (used to state the lemmas;
-- each is proved equal to the corresponding table-level stage)
-- ==========================================================================

/-- The numeric-coercion loop restricted to one row's cells. -/
def coerceCellsFold (cols : List String) (cs : List String) (cells : Cells) : Cells :=
  cs.foldl (fun acc c => if c ∈ cols then coerceCellsStep acc c else acc) cells

/-- What `coerceNumerics` does to a single row of a table with columns `cols`. -/
def coerceRowFn (cols : List String) (r : GeoRow) : GeoRow :=
  { r with cells := coerceCellsFold cols cols_num r.cells }

/-- What `addZones` does to a single row's cells of a table with columns `cols`. -/
def zoneCellsFn (cols : List String) (cells : Cells) : Cells :=
  if "cluster_kmeans" ∈ cols then
    let id := clusterIdOfCell ((alookup cells "cluster_kmeans").getD .na)
    setCell (setCell cells "cluster_kmeans" (.numv (id : ℚ))) "Nom_Zona" (.txt (zoneFromId id) none)
  else setCell cells "Nom_Zona" (.txt "General" none)

/-- What `addZones` does to a single row. -/
def zoneRowFn (cols : List String) (r : GeoRow) : GeoRow :=
  { r with cells := zoneCellsFn cols r.cells }

/-- What `reprojectIfNeeded` does to a single row of a table with CRS `crs`. -/
def reprojRowFn (f : ℚ × ℚ → ℚ × ℚ) (crs : Option String) (r : GeoRow) : GeoRow :=
  match crs with
  | none => r
  | some s => if s = "EPSG:4326" then r else { r with geom := reprojGeom f r.geom }

/-- The zone labels the dashboard can ever produce: the five catalogue names,
`"Altres"` and `"General"`. -/
def allowedZones : List String := NOMS_ZONES.map Prod.snd ++ ["Altres", "General"]

instance : IsTotal GeoRow ascRowLe :=
  ⟨fun a b => by
    unfold ascRowLe ascRowLeB
    rcases ha : rankKey a with _ | x <;> rcases hb : rankKey b with _ | y <;> simp [ha, hb]
    exact le_total x y⟩

instance : IsTrans GeoRow ascRowLe :=
  ⟨fun a b c hab hbc => by
    unfold ascRowLe ascRowLeB at *
    rcases ha : rankKey a with _ | x <;> rcases hb : rankKey b with _ | y <;>
      rcases hc : rankKey c with _ | z <;> simp_all
    exact le_trans hab hbc⟩

instance : IsTotal GeoRow descRowLe :=
  ⟨fun a b => by
    unfold descRowLe descRowLeB
    rcases ha : rankKey a with _ | x <;> rcases hb : rankKey b with _ | y <;> simp [ha, hb]
    exact le_total y x⟩

instance : IsTrans GeoRow descRowLe :=
  ⟨fun a b c hab hbc => by
    unfold descRowLe descRowLeB at *
    rcases ha : rankKey a with _ | x <;> rcases hb : rankKey b with _ | y <;>
      rcases hc : rankKey c with _ | z <;> simp_all
    exact le_trans hbc hab⟩

-- ==========================================================================
-- Concrete example inputs used by the witnesses and counterexamples
-- ==========================================================================

/-- A small measures file: two areas plus a cluster column with one
unparseable value. -/
def csvEx : Table :=
  { cols := ["Nom_Barri", "in_total_viajes", "num_paradas_tmb", "cluster_kmeans"]
    rows := [ [("Nom_Barri", .txt "ALFA" none), ("in_total_viajes", .txt "10" (some 10)),
               ("num_paradas_tmb", .txt "2" (some 2)), ("cluster_kmeans", .txt "1" (some 1))]
            , [("Nom_Barri", .txt "beta" none), ("in_total_viajes", .txt "30" (some 30)),
               ("num_paradas_tmb", .txt "1" (some 1)), ("cluster_kmeans", .txt "x" none)] ] }

/-- A small boundary file: three areas, one with an empty geometry and no
matching measures row. -/
def geoEx : GeoTable :=
  { crs := some "EPSG:4326"
    cols := ["n_barri"]
    rows := [ { geom := .pt 1 41, cells := [("n_barri", .txt "Alfa " none)] }
            , { geom := .pt 2 42, cells := [("n_barri", .txt "Beta" none)] }
            , { geom := .empty,   cells := [("n_barri", .txt "Gamma" none)] } ] }

/-- A run in which both files exist and load as `csvEx` / `geoEx`. -/
def wEx : World :=
  { csvExists := true, geoExists := true
    csvRead := .ok csvEx, geoRead := .ok geoEx, reproj := id }

/-- The table `load_data wEx` returns (checked by `rfl` in the witnesses). -/
def tEx : GeoTable :=
  { crs := some "EPSG:4326"
    cols := ["n_barri", "id_match", "Nom_Barri", "in_total_viajes", "num_paradas_tmb",
             "cluster_kmeans", "Nom_Zona"]
    rows := [ { geom := .pt 1 41
                cells := [("n_barri", .txt "Alfa " none), ("id_match", .txt "alfa" none),
                          ("Nom_Barri", .txt "ALFA" none), ("in_total_viajes", .numv 10),
                          ("num_paradas_tmb", .numv 2), ("cluster_kmeans", .numv 1),
                          ("Nom_Zona", .txt "Centre Neuràlgic" none)] }
            , { geom := .pt 2 42
                cells := [("n_barri", .txt "Beta" none), ("id_match", .txt "beta" none),
                          ("Nom_Barri", .txt "beta" none), ("in_total_viajes", .numv 30),
                          ("num_paradas_tmb", .numv 1), ("cluster_kmeans", .numv (-1)),
                          ("Nom_Zona", .txt "Altres" none)] }
            , { geom := .empty
                cells := [("n_barri", .txt "Gamma" none), ("id_match", .txt "gamma" none),
                          ("Nom_Barri", .na), ("in_total_viajes", .numv 0),
                          ("num_paradas_tmb", .numv 0), ("cluster_kmeans", .numv (-1)),
                          ("Nom_Zona", .txt "Altres" none)] } ] }

/-- The map center `load_data wEx` returns: the mean of latitudes 41 and 42
and of longitudes 1 and 2. -/
def cenEx : Option ℚ × Option ℚ := mapCenter tEx

/-- The first row of `tEx` (cluster id 1, matched). -/
def rowEx0 : GeoRow := tEx.rows.headD { geom := .empty, cells := [] }

/-- The third row of `tEx` (no matching measures row). -/
def rowEx2 : GeoRow := (tEx.rows.drop 2).headD { geom := .empty, cells := [] }

/-- A boundary file whose single geometry is empty. -/
def geoNoGeom : GeoTable :=
  { crs := some "EPSG:4326", cols := ["n_barri"]
    rows := [{ geom := .empty, cells := [("n_barri", .txt "A" none)] }] }

/-- A minimal measures file. -/
def csvMin : Table :=
  { cols := ["Nom_Barri"], rows := [[("Nom_Barri", .txt "A" none)]] }

/-- A run whose boundary file holds no geometry at all. -/
def wNoGeom : World :=
  { csvExists := true, geoExists := true
    csvRead := .ok csvMin, geoRead := .ok geoNoGeom, reproj := id }

/-- A boundary file with a single row keyed `"a"`. -/
def geoOne : GeoTable :=
  { crs := some "EPSG:4326", cols := ["n_barri"]
    rows := [{ geom := .pt 1 41, cells := [("n_barri", .txt "A" none)] }] }

/-- A measures file with two rows whose join keys collide (`"A"` and
`"a "` both normalise to `"a"`). -/
def csvDup : Table :=
  { cols := ["Nom_Barri", "in_total_viajes"]
    rows := [ [("Nom_Barri", .txt "A" none), ("in_total_viajes", .txt "1" (some 1))]
            , [("Nom_Barri", .txt "a " none), ("in_total_viajes", .txt "2" (some 2))] ] }

/-- A run with duplicate measure keys for one boundary row. -/
def wDup : World :=
  { csvExists := true, geoExists := true
    csvRead := .ok csvDup, geoRead := .ok geoOne, reproj := id }

/-- A measures file in which `presion_tmb` (and others of the expected
numeric columns) are entirely absent. -/
def csvAbs : Table :=
  { cols := ["Nom_Barri", "in_total_viajes"]
    rows := [[("Nom_Barri", .txt "A" none), ("in_total_viajes", .txt "5" (some 5))]] }

/-- A run whose inputs lack some expected numeric columns. -/
def wAbs : World :=
  { csvExists := true, geoExists := true
    csvRead := .ok csvAbs, geoRead := .ok geoOne, reproj := id }

/-- A run in which the measures file is missing. -/
def wMissing : World :=
  { csvExists := false, geoExists := true
    csvRead := .ok csvMin, geoRead := .ok geoOne, reproj := id }

/-- A two-row prepared table for the top-decile labelling: the second row's
volume (100) exceeds the 90th percentile of the volume distribution. -/
def g7 : GeoTable :=
  { crs := some "EPSG:4326"
    cols := ["Nom_Barri", "in_total_viajes", "num_paradas_tmb"]
    rows := [ { geom := .empty
                cells := [("Nom_Barri", .txt "Alfa" none), ("in_total_viajes", .numv 1),
                          ("num_paradas_tmb", .numv 1)] }
            , { geom := .empty
                cells := [("Nom_Barri", .txt "Beta" none), ("in_total_viajes", .numv 100),
                          ("num_paradas_tmb", .numv 1)] } ] }

/-- The second row of `g7`. -/
def g7row : GeoRow := (g7.rows.drop 1).headD { geom := .empty, cells := [] }

/-- A 73-row prepared table with pairwise distinct volumes. -/
def t73 : GeoTable :=
  { crs := some "EPSG:4326", cols := ["in_total_viajes"]
    rows := (List.range 73).map (fun i =>
      { geom := .empty, cells := [("in_total_viajes", Cell.numv (i : ℚ))] }) }

-- ==========================================================================
-- Decidable renderings of the claims under test (used by counterexamples)
-- ==========================================================================

/-- The fixed fallback coordinate named by the specification. -/
def c1Fallback : Option ℚ × Option ℚ := (some (4139/100 : ℚ), some (217/100 : ℚ))

/-- C1 as stated, on one run: when no geometry is present the returned center
must equal the fallback (41.39, 2.17); `none` when the load fails. -/
def c1Check (w : World) : Option Bool :=
  match load_data w with
  | .ok (t, cen) => some (if centroidLats t = [] then decide (cen = c1Fallback) else true)
  | .error _ => none

/-- C2 as stated, on one run: every boundary row appears exactly once, so in
particular the output has exactly as many rows as the boundary file. -/
def c2Check (w : World) : Option Bool :=
  match w.geoRead, load_data w with
  | .ok g0, .ok (t, _) => some (decide (t.rows.length = g0.rows.length))
  | _, _ => none

/-- C3 as stated, on one run: every expected numeric column is present in the
output (an absent one "treated as zero") and holds only numeric values. -/
def c3Check (w : World) : Option Bool :=
  match load_data w with
  | .ok (t, _) => some (cols_num.all (fun c => decide (c ∈ t.cols)
      && t.rows.all (fun r =>
          match alookup r.cells c with
          | some (.numv _) => true
          | _ => false)))
  | .error _ => none

/-- C4 as stated, on one run: the `df_rank` top-20 selection starts with a
row of maximal volume (descending order). -/
def c4Check (w : World) : Option Bool :=
  match load_data w with
  | .ok (t, _) =>
    match df_rank 20 t with
    | [] => some false
    | r₀ :: _ => some (t.rows.all (fun r => descRowLeB r₀ r))
  | .error _ => none

-- ==========================================================================
-- Association-list lemmas
-- ==========================================================================

theorem alookup_eq_none_of_not_mem_keys {β : Type} (l : List (String × β)) (k : String)
    (h : k ∉ l.map Prod.fst) : alookup l k = none := by
  induction l with
  | nil => rfl
  | cons p rest ih =>
    simp only [List.map_cons, List.mem_cons] at h
    push_neg at h
    have hp : ¬p.1 = k := fun hh => h.1 hh.symm
    simp [alookup, hp, ih h.2]

theorem alookup_append_left {β : Type} (l₁ l₂ : List (String × β)) (k : String) (v : β)
    (h : alookup l₁ k = some v) : alookup (l₁ ++ l₂) k = some v := by
  induction l₁ with
  | nil => simp [alookup] at h
  | cons p rest ih =>
    by_cases hp : p.1 = k
    · simp only [alookup, hp, if_true] at h
      simp [alookup, hp, h]
    · simp only [alookup, hp, if_false] at h
      simp [alookup, hp, ih h]

theorem alookup_append_right {β : Type} (l₁ l₂ : List (String × β)) (k : String)
    (h : alookup l₁ k = none) : alookup (l₁ ++ l₂) k = alookup l₂ k := by
  induction l₁ with
  | nil => simp
  | cons p rest ih =>
    by_cases hp : p.1 = k
    · simp [alookup, hp] at h
    · simp only [alookup, hp, if_false] at h
      simp [alookup, hp, ih h]

theorem alookup_mapUpdate_self (l : Cells) (k : String) (v : Cell) :
    alookup (l.map (fun p => if p.1 = k then (k, v) else p)) k
      = (alookup l k).map (fun _ => v) := by
  induction l with
  | nil => rfl
  | cons p rest ih =>
    by_cases hp : p.1 = k
    · simp [alookup, hp]
    · simp [alookup, hp, ih]

theorem alookup_mapUpdate_ne (l : Cells) (k k₂ : String) (v : Cell) (h : k₂ ≠ k) :
    alookup (l.map (fun p => if p.1 = k then (k, v) else p)) k₂ = alookup l k₂ := by
  induction l with
  | nil => rfl
  | cons p rest ih =>
    by_cases hp : p.1 = k
    · have hk : ¬k = k₂ := fun hh => h hh.symm
      have hpk : ¬p.1 = k₂ := by rw [hp]; exact hk
      simp [alookup, hp, hk, hpk, ih]
    · have hk : ¬k₂ = k := h
      by_cases hp2 : p.1 = k₂ <;> simp [alookup, hp, hp2, hk, ih]

theorem alookup_setCell_self (l : Cells) (k : String) (v : Cell) :
    alookup (setCell l k v) k = some v := by
  unfold setCell
  by_cases h : (alookup l k).isSome
  · obtain ⟨w, hw⟩ := Option.isSome_iff_exists.mp h
    simp [alookup_mapUpdate_self, hw, h]
  · have hn : alookup l k = none := Option.not_isSome_iff_eq_none.mp h
    rw [if_neg h, alookup_append_right _ _ _ hn]
    simp [alookup]

theorem alookup_setCell_ne (l : Cells) (k k₂ : String) (v : Cell) (h : k₂ ≠ k) :
    alookup (setCell l k v) k₂ = alookup l k₂ := by
  unfold setCell
  by_cases hs : (alookup l k).isSome
  · simp [hs, alookup_mapUpdate_ne _ _ _ _ h]
  · rw [if_neg hs]
    cases hl : alookup l k₂ with
    | some v₂ => exact alookup_append_left _ _ _ _ hl
    | none =>
      rw [alookup_append_right _ _ _ hl]
      have hk : ¬k = k₂ := fun hh => h hh.symm
      simp [alookup, hk]

theorem keys_setCell (l : Cells) (k : String) (v : Cell) :
    (setCell l k v).map Prod.fst =
      if (alookup l k).isSome then l.map Prod.fst else l.map Prod.fst ++ [k] := by
  unfold setCell
  by_cases hs : (alookup l k).isSome
  · simp only [hs, if_true, List.map_map]
    congr 1
    funext p
    by_cases hp : p.1 = k <;> simp [hp]
  · simp [hs]

theorem alookup_some_mem_snd {α β : Type} [DecidableEq α]
    (l : List (α × β)) (k : α) (v : β) (h : alookup l k = some v) :
    v ∈ l.map Prod.snd := by
  induction l with
  | nil => simp [alookup] at h
  | cons p rest ih =>
    by_cases hp : p.1 = k
    · simp only [alookup, hp, if_true, Option.some.injEq] at h
      simp [← h]
    · simp only [alookup, hp, if_false] at h
      simp [ih h]

theorem alookup_pad (cs : List String) (c : String) (hc : c ∈ cs) :
    alookup (cs.map (fun c => (c, Cell.na))) c = some Cell.na := by
  induction cs with
  | nil => simp at hc
  | cons c₀ rest ih =>
    rcases List.mem_cons.mp hc with rfl | hmem
    · simp [alookup]
    · by_cases h : c₀ = c
      · simp [alookup, h]
      · simp [alookup, h, ih hmem]

theorem flatMap_eq_map_of_forall_singleton {α β : Type} (f : α → List β) (l : List α) (d : β)
    (h : ∀ a ∈ l, (f a).length = 1) :
    l.flatMap f = l.map (fun a => (f a).headD d) := by
  induction l with
  | nil => rfl
  | cons a rest ih =>
    have h₁ : (f a).length = 1 := h a (by simp)
    obtain ⟨x, hx⟩ := List.length_eq_one.mp h₁
    simp only [List.flatMap_cons, List.map_cons, hx, List.headD_cons]
    rw [ih (fun b hb => h b (by simp [hb]))]
    rfl

-- ==========================================================================
-- Structure of the pipeline stages
-- ==========================================================================

theorem coerceFold_cols (cs : List String) (m : GeoTable) :
    (cs.foldl (fun acc c => if c ∈ acc.cols then coerceOne acc c else acc) m).cols = m.cols := by
  induction cs generalizing m with
  | nil => rfl
  | cons c rest ih =>
    simp only [List.foldl_cons]
    by_cases h : c ∈ m.cols
    · rw [if_pos h, ih]; rfl
    · rw [if_neg h, ih]

theorem coerceNumerics_cols (m : GeoTable) : (coerceNumerics m).cols = m.cols :=
  coerceFold_cols cols_num m

theorem coerceFold_rows (cs : List String) (m : GeoTable) :
    (cs.foldl (fun acc c => if c ∈ acc.cols then coerceOne acc c else acc) m).rows
      = m.rows.map (fun r => { r with cells := coerceCellsFold m.cols cs r.cells }) := by
  induction cs generalizing m with
  | nil =>
    simp only [List.foldl_nil, coerceCellsFold, List.foldl_nil]
    exact (List.map_id m.rows).symm
  | cons c rest ih =>
    simp only [List.foldl_cons]
    by_cases h : c ∈ m.cols
    · rw [if_pos h]
      rw [ih (coerceOne m c)]
      simp only [coerceOne, List.map_map]
      apply List.map_congr_left
      intro r _
      simp [coerceCellsFold, Function.comp, h]
    · rw [if_neg h]
      rw [ih m]
      apply List.map_congr_left
      intro r _
      simp [coerceCellsFold, h]

theorem coerceNumerics_rows (m : GeoTable) :
    (coerceNumerics m).rows = m.rows.map (coerceRowFn m.cols) :=
  coerceFold_rows cols_num m

theorem addZones_rows (m : GeoTable) :
    (addZones m).rows = m.rows.map (zoneRowFn m.cols) := by
  by_cases h : "cluster_kmeans" ∈ m.cols <;>
    simp [addZones, zoneRowFn, zoneCellsFn, h]

theorem addZones_cols (m : GeoTable) :
    (addZones m).cols = if "Nom_Zona" ∈ m.cols then m.cols else m.cols ++ ["Nom_Zona"] := by
  by_cases h : "cluster_kmeans" ∈ m.cols <;> simp [addZones, h]

theorem reprojectIfNeeded_rows (f : ℚ × ℚ → ℚ × ℚ) (g : GeoTable) :
    (reprojectIfNeeded f g).rows = g.rows.map (reprojRowFn f g.crs) := by
  cases hc : g.crs with
  | none =>
    simp only [reprojectIfNeeded, hc]
    exact (List.map_id g.rows).symm
  | some s =>
    by_cases h : s = "EPSG:4326"
    · subst h
      have h1 : reprojectIfNeeded f g = g := by simp [reprojectIfNeeded, hc]
      have h2 : reprojRowFn f (some "EPSG:4326") = id := funext fun r => by simp [reprojRowFn]
      rw [h1, h2, List.map_id]
    · simp [reprojectIfNeeded, reprojRowFn, hc, h]

theorem reprojectIfNeeded_cols (f : ℚ × ℚ → ℚ × ℚ) (g : GeoTable) :
    (reprojectIfNeeded f g).cols = g.cols := by
  cases hc : g.crs with
  | none => simp [reprojectIfNeeded, hc]
  | some s =>
    by_cases h : s = "EPSG:4326" <;> simp [reprojectIfNeeded, hc, h]

theorem zoneRowFn_cells (cols : List String) (r : GeoRow) :
    (zoneRowFn cols r).cells = zoneCellsFn cols r.cells := rfl

theorem coerceRowFn_cells (cols : List String) (r : GeoRow) :
    (coerceRowFn cols r).cells = coerceCellsFold cols cols_num r.cells := rfl

theorem reprojRowFn_cells (f : ℚ × ℚ → ℚ × ℚ) (crs : Option String) (r : GeoRow) :
    (reprojRowFn f crs r).cells = r.cells := by
  cases crs with
  | none => rfl
  | some s => by_cases h : s = "EPSG:4326" <;> simp [reprojRowFn, h]

theorem alookup_coerceCellsFold_not_mem (cols cs : List String) (cells : Cells) (k : String)
    (hk : k ∉ cs) :
    alookup (coerceCellsFold cols cs cells) k = alookup cells k := by
  induction cs generalizing cells with
  | nil => rfl
  | cons c rest ih =>
    have hkc : k ≠ c := fun hh => hk (by simp [hh])
    have hkrest : k ∉ rest := fun hh => hk (by simp [hh])
    simp only [coerceCellsFold, List.foldl_cons]
    by_cases h : c ∈ cols
    · rw [if_pos h]
      rw [show (rest.foldl (fun acc c => if c ∈ cols then coerceCellsStep acc c else acc)
        (coerceCellsStep cells c)) = coerceCellsFold cols rest (coerceCellsStep cells c) from rfl]
      rw [ih _ hkrest]
      exact alookup_setCell_ne _ _ _ _ hkc
    · rw [if_neg h]
      exact ih _ hkrest

theorem alookup_coerceCellsFold_mem (cols cs : List String) (cells : Cells) (c : String)
    (hnd : cs.Nodup) (hc : c ∈ cs) (hcol : c ∈ cols) :
    alookup (coerceCellsFold cols cs cells) c
      = some (.numv ((toNumOpt ((alookup cells c).getD .na)).getD 0)) := by
  induction cs generalizing cells with
  | nil => simp at hc
  | cons c₀ rest ih =>
    have hnd' : rest.Nodup := hnd.of_cons
    simp only [coerceCellsFold, List.foldl_cons]
    rcases List.mem_cons.mp hc with rfl | hmem
    · rw [if_pos hcol]
      have hnotin : c ∉ rest := (List.nodup_cons.mp hnd).1
      rw [show (rest.foldl (fun acc c => if c ∈ cols then coerceCellsStep acc c else acc)
        (coerceCellsStep cells c)) = coerceCellsFold cols rest (coerceCellsStep cells c) from rfl]
      rw [alookup_coerceCellsFold_not_mem _ _ _ _ hnotin]
      exact alookup_setCell_self _ _ _
    · have hne : c ≠ c₀ := fun hh => (List.nodup_cons.mp hnd).1 (hh ▸ hmem)
      by_cases h : c₀ ∈ cols
      · rw [if_pos h]
        rw [show (rest.foldl (fun acc c => if c ∈ cols then coerceCellsStep acc c else acc)
          (coerceCellsStep cells c₀)) = coerceCellsFold cols rest (coerceCellsStep cells c₀) from rfl]
        rw [ih _ hnd' hmem]
        have hstep : alookup (coerceCellsStep cells c₀) c = alookup cells c :=
          alookup_setCell_ne _ _ _ _ hne
        rw [hstep]
      · rw [if_neg h]
        exact ih _ hnd' hmem

theorem alookup_zoneCellsFn_ne (cols : List String) (cells : Cells) (k : String)
    (h₁ : k ≠ "cluster_kmeans") (h₂ : k ≠ "Nom_Zona") :
    alookup (zoneCellsFn cols cells) k = alookup cells k := by
  unfold zoneCellsFn
  by_cases h : "cluster_kmeans" ∈ cols
  · rw [if_pos h, alookup_setCell_ne _ _ _ _ h₂, alookup_setCell_ne _ _ _ _ h₁]
  · rw [if_neg h, alookup_setCell_ne _ _ _ _ h₂]

theorem alookup_zoneCellsFn_zona_present (cols : List String) (cells : Cells)
    (h : "cluster_kmeans" ∈ cols) :
    alookup (zoneCellsFn cols cells) "Nom_Zona"
        = some (.txt (zoneFromId (clusterIdOfCell ((alookup cells "cluster_kmeans").getD .na))) none)
      ∧ alookup (zoneCellsFn cols cells) "cluster_kmeans"
        = some (.numv ((clusterIdOfCell ((alookup cells "cluster_kmeans").getD .na) : Int) : ℚ)) := by
  unfold zoneCellsFn
  rw [if_pos h]
  constructor
  · exact alookup_setCell_self _ _ _
  · rw [alookup_setCell_ne _ _ _ _ (by decide)]
    exact alookup_setCell_self _ _ _

theorem alookup_zoneCellsFn_zona_absent (cols : List String) (cells : Cells)
    (h : "cluster_kmeans" ∉ cols) :
    alookup (zoneCellsFn cols cells) "Nom_Zona" = some (.txt "General" none) := by
  unfold zoneCellsFn
  rw [if_neg h]
  exact alookup_setCell_self _ _ _

-- ==========================================================================
-- Structure of the left merge
-- ==========================================================================

theorem mergeBlock_length (dcols : List String) (drows : List Cells) (r : GeoRow) :
    (mergeBlock dcols drows r).length
      = max 1 (drows.filter (fun rd => rowKey rd == rowKey r.cells)).length := by
  unfold mergeBlock
  cases h : drows.filter (fun rd => rowKey rd == rowKey r.cells) with
  | nil => simp
  | cons x xs => simp [Nat.max_eq_right (Nat.succ_le_succ (Nat.zero_le xs.length))]

theorem mergeBlock_mem_key (dcols : List String) (drows : List Cells) (r : GeoRow)
    (v : Cell) (hsome : alookup r.cells "id_match" = some v) :
    ∀ x ∈ mergeBlock dcols drows r, alookup x.cells "id_match" = some v := by
  intro x hx
  unfold mergeBlock at hx
  cases h : drows.filter (fun rd => rowKey rd == rowKey r.cells) with
  | nil =>
    rw [h] at hx
    simp only [List.mem_singleton] at hx
    subst hx
    exact alookup_append_left _ _ _ _ hsome
  | cons y ys =>
    rw [h] at hx
    simp only [List.mem_map] at hx
    obtain ⟨rd, _, hrd⟩ := hx
    subst hrd
    exact alookup_append_left _ _ _ _ hsome

theorem mergeBlock_cases (dcols : List String) (drows : List Cells) (r : GeoRow)
    (x : GeoRow) (hx : x ∈ mergeBlock dcols drows r) :
    ((drows.filter (fun rd => rowKey rd == rowKey r.cells)) = [] ∧
      x = { geom := r.geom
            cells := r.cells ++ (dcols.erase "id_match").map (fun c => (c, Cell.na)) })
    ∨ (∃ rd ∈ drows, rowKey rd = rowKey r.cells ∧
        x = { geom := r.geom, cells := r.cells ++ rd.filter (fun p => p.1 ≠ "id_match") }) := by
  unfold mergeBlock at hx
  cases h : drows.filter (fun rd => rowKey rd == rowKey r.cells) with
  | nil =>
    rw [h] at hx
    simp only [List.mem_singleton] at hx
    exact Or.inl ⟨rfl, hx⟩
  | cons y ys =>
    rw [h] at hx
    simp only [List.mem_map] at hx
    obtain ⟨rd, hrdmem, hrd⟩ := hx
    have hmem : rd ∈ drows.filter (fun rd => rowKey rd == rowKey r.cells) := h ▸ hrdmem
    have := List.mem_filter.mp hmem
    exact Or.inr ⟨rd, this.1, by simpa using this.2, hrd.symm⟩

-- ==========================================================================
-- Shape of a successful load
-- ==========================================================================

theorem load_data_ok_shape (w : World) (t : GeoTable) (cen : Option ℚ × Option ℚ)
    (hok : load_data w = .ok (t, cen)) :
    ∃ d0 g0 gc, w.csvRead = .ok d0 ∧ w.geoRead = .ok g0 ∧ findGeoCol g0 = some gc ∧
      t = reprojectIfNeeded w.reproj
            (addZones (coerceNumerics (leftMerge (addGeoKey g0 gc) (prepMeasures d0)))) ∧
      cen = mapCenter t := by
  unfold load_data at hok
  by_cases hex : ¬w.csvExists ∨ ¬w.geoExists
  · rw [if_pos hex] at hok
    exact absurd hok (by simp)
  · rw [if_neg hex] at hok
    cases hcr : w.csvRead with
    | error e => simp only [hcr] at hok; exact absurd hok (by simp)
    | ok d0 =>
      simp only [hcr] at hok
      cases hgr : w.geoRead with
      | error e => simp only [hgr] at hok; exact absurd hok (by simp)
      | ok g0 =>
        simp only [hgr] at hok
        cases hfc : findGeoCol g0 with
        | none => simp only [hfc] at hok; exact absurd hok (by simp)
        | some gc =>
          simp only [hfc, Except.ok.injEq, Prod.mk.injEq] at hok
          refine ⟨d0, g0, gc, rfl, rfl, hfc, hok.1.symm, ?_⟩
          rw [← hok.1]
          exact hok.2.symm

-- ==========================================================================
-- Claim theorems
-- ==========================================================================

/-- C1 (amended): on every successful load the returned map center is the
pair of means of the centroid latitudes and longitudes of the non-empty
geometries of the returned (CRS-normalised) table; when no geometry is
present the components are `none` (pandas `NaN`), not a fixed fallback. -/
theorem map_center_is_mean_of_centroids (w : World) (t : GeoTable)
    (cen : Option ℚ × Option ℚ) (hok : load_data w = .ok (t, cen)) :
    cen = (meanOpt (centroidLats t), meanOpt (centroidLons t)) ∧
    (centroidLats t ≠ [] →
      cen.1 = some ((centroidLats t).sum / ((centroidLats t).length : ℚ))) ∧
    (centroidLons t ≠ [] →
      cen.2 = some ((centroidLons t).sum / ((centroidLons t).length : ℚ))) ∧
    (centroidLats t = [] → cen.1 = none) ∧
    (centroidLons t = [] → cen.2 = none) := by
  obtain ⟨d0, g0, gc, _, _, _, ht, hcen⟩ := load_data_ok_shape w t cen hok
  subst hcen
  refine ⟨rfl, ?_, ?_, ?_, ?_⟩
  · intro hne
    simp [mapCenter, meanOpt, List.isEmpty_iff, hne]
  · intro hne
    simp [mapCenter, meanOpt, List.isEmpty_iff, hne]
  · intro he
    simp [mapCenter, meanOpt, he]
  · intro he
    simp [mapCenter, meanOpt, he]

/-- C1 witness: on the three-row example the center is the mean of the two
non-empty centroids. -/
theorem map_center_is_mean_of_centroids_witness :
    centroidLats tEx ≠ [] ∧
    cenEx.1 = some ((centroidLats tEx).sum / ((centroidLats tEx).length : ℚ)) ∧
    cenEx.2 = some ((centroidLons tEx).sum / ((centroidLons tEx).length : ℚ)) := by
  have h := map_center_is_mean_of_centroids wEx tEx cenEx rfl
  exact ⟨by decide, h.2.1 (by decide), h.2.2.1 (by decide)⟩

/-- C1 counterexample: a successful run whose boundary file holds only an
empty geometry returns the center `(none, none)` — pandas `NaN` — and not
the fixed fallback coordinate (41.39, 2.17) the claim states; no such
fallback exists in the code. -/
theorem map_center_no_fallback_counterexample :
    c1Check wNoGeom = some false ∧
    (load_data wNoGeom).toOption.map (fun p => p.2) = some (none, none) := by
  exact ⟨by decide, by decide⟩

/-- C5 (confirmed): `load_data` fails exactly when (a) one of the two input
files is absent (reported with the fixed missing-files message, before any
read is attempted), (b) a read raises, with the exception text carried
verbatim inside the failure string, or (c) both reads succeed but none of
the candidate name columns occurs in the boundary file; in every other case
it succeeds. -/
theorem load_data_failure_taxonomy (w : World) (m : String) :
    load_data w = .error m ↔
      (¬(w.csvExists = true ∧ w.geoExists = true) ∧ m = missingMsg)
      ∨ (w.csvExists = true ∧ w.geoExists = true ∧
          ∃ e, (w.csvRead = .error e ∨ ∃ d0, w.csvRead = .ok d0 ∧ w.geoRead = .error e)
            ∧ m = loadErrMsg e)
      ∨ (w.csvExists = true ∧ w.geoExists = true ∧
          ∃ d0 g0, w.csvRead = .ok d0 ∧ w.geoRead = .ok g0
            ∧ (∀ c ∈ geoColCandidates, c ∉ g0.cols) ∧ m = noNameColMsg) := by
  rcases w with ⟨ce, ge, cr, gr, rp⟩
  simp only [load_data]
  cases ce with
  | false =>
    rw [if_pos (by simp)]
    simp [eq_comm]
  | true =>
    cases ge with
    | false =>
      rw [if_pos (by simp)]
      simp [eq_comm]
    | true =>
      rw [if_neg (by simp)]
      cases cr with
      | error e => simp [eq_comm]
      | ok d0 =>
        cases gr with
        | error e => simp [eq_comm]
        | ok g0 =>
          cases hfc : findGeoCol g0 with
          | none =>
            have hall : ∀ c ∈ geoColCandidates, c ∉ g0.cols := by
              intro c hcand hc
              have := List.find?_eq_none.mp hfc c hcand
              simp [hc] at this
            simp [hfc, hall, eq_comm]
            intro _
            exact hall
          | some gc =>
            have hgcand : gc ∈ geoColCandidates := List.mem_of_find?_eq_some hfc
            have hqc : gc ∈ g0.cols := by
              have := List.find?_some hfc
              simpa using this
            constructor
            · intro h
              simp [hfc] at h
            · rintro (⟨h, _⟩ | ⟨_, _, e, h, _⟩ | ⟨_, _, d1, g1, hd, hg, hall, _⟩)
              · exact absurd ⟨rfl, rfl⟩ h
              · rcases h with h | ⟨d1, _, h⟩ <;> simp at h
              · cases hg
                exact absurd hqc (hall gc hgcand)

/-- C8 (confirmed): the pipeline is a pure function of the file contents
(and the CRS transformation); two runs on identical inputs return identical
tables and identical map centers. -/
theorem load_data_deterministic (w₁ w₂ : World) (h : w₁ = w₂) :
    load_data w₁ = load_data w₂ ∧ load_data_py w₁ = load_data_py w₂ := by
  subst h
  exact ⟨rfl, rfl⟩

/-- C8 witness: re-running on the example inputs reproduces the output. -/
theorem load_data_deterministic_witness :
    load_data wEx = load_data wEx ∧ load_data_py wEx = load_data_py wEx :=
  load_data_deterministic wEx wEx rfl

/-- C9 (confirmed): the first component of the returned tuple is `None` on
every failure — never a string — with the message in the second component;
hence the caller's `isinstance(gdf, str)` test never observes a failure. -/
theorem failure_first_component_none (w : World) :
    (∀ m, load_data w = .error m → load_data_py w = (.pynone, .pystr m)) ∧
    (load_data_py w).1.isStr = false ∧
    callerSeesFailure w = false ∧
    (∀ t cen, load_data w = .ok (t, cen) →
      load_data_py w = (.pytable t, .pypair cen.1 cen.2)) := by
  refine ⟨?_, ?_, ?_, ?_⟩
  · intro m hm
    simp [load_data_py, hm]
  · cases hld : load_data w with
    | ok p => simp [load_data_py, hld, PyVal.isStr]
    | error m => simp [load_data_py, hld, PyVal.isStr]
  · unfold callerSeesFailure
    cases hld : load_data w with
    | ok p => simp [load_data_py, hld, PyVal.isStr]
    | error m => simp [load_data_py, hld, PyVal.isStr]
  · intro t cen hm
    simp [load_data_py, hm]

/-- C9 witness: at the missing-file run the tuple is `(None, message)` and
the caller's string test still reports no failure. -/
theorem failure_first_component_none_witness :
    load_data_py wMissing = (.pynone, .pystr missingMsg) ∧
    callerSeesFailure wMissing = false :=
  ⟨(failure_first_component_none wMissing).1 missingMsg rfl,
   (failure_first_component_none wMissing).2.2.1⟩

theorem descRowLe_refl (a : GeoRow) : descRowLe a a := by
  unfold descRowLe descRowLeB
  rcases h : rankKey a with _ | x <;> simp [h]

/-- C4 (amended): sorting by total volume descending and taking the head
(`df_table`, line 337) yields exactly `n` rows in non-increasing volume
order whose first row has maximal volume over the whole table; the bar-chart
selection (`df_rank`, line 281) also yields exactly `n` rows but in
non-decreasing (ascending) order. -/
theorem topn_ranking_amended (g : GeoTable) (n : ℕ)
    (hn : n ≤ g.rows.length) (hpos : 0 < n) :
    (df_table n g).length = n ∧
    (df_rank n g).length = n ∧
    List.Sorted descRowLe (df_table n g) ∧
    List.Sorted ascRowLe (df_rank n g) ∧
    ∃ r₀ rest, df_table n g = r₀ :: rest ∧ ∀ r ∈ g.rows, descRowLe r₀ r := by
  have hsd : List.Sorted descRowLe (List.insertionSort descRowLe g.rows) :=
    List.sorted_insertionSort descRowLe g.rows
  have hsa : List.Sorted ascRowLe (List.insertionSort ascRowLe g.rows) :=
    List.sorted_insertionSort ascRowLe g.rows
  have hlend : (List.insertionSort descRowLe g.rows).length = g.rows.length :=
    List.length_insertionSort descRowLe g.rows
  have hlena : (List.insertionSort ascRowLe g.rows).length = g.rows.length :=
    List.length_insertionSort ascRowLe g.rows
  refine ⟨?_, ?_, ?_, ?_, ?_⟩
  · simp only [df_table, List.length_take, hlend]
    omega
  · simp only [df_rank, List.length_drop, hlena]
    omega
  · exact List.Pairwise.sublist (List.take_sublist _ _) hsd
  · exact List.Pairwise.sublist (List.drop_sublist _ _) hsa
  · have hne : List.insertionSort descRowLe g.rows ≠ [] := by
      intro h0
      rw [h0] at hlend
      simp at hlend
      omega
    obtain ⟨r₀, tail, hcons⟩ := List.exists_cons_of_ne_nil hne
    obtain ⟨k, hk⟩ := Nat.exists_eq_succ_of_ne_zero (Nat.pos_iff_ne_zero.mp hpos)
    refine ⟨r₀, tail.take k, ?_, ?_⟩
    · simp [df_table, hcons, hk]
    · intro r hr
      have hrs : r ∈ List.insertionSort descRowLe g.rows :=
        (List.mem_insertionSort descRowLe).mpr hr
      rw [hcons] at hrs
      rcases List.mem_cons.mp hrs with rfl | htail
      · exact descRowLe_refl r
      · exact List.rel_of_sorted_cons (hcons ▸ hsd) r htail

/-- C4 witness: with 73 rows of pairwise distinct volumes and n = 20,
`df_table` returns exactly 20 rows, descending, the highest first, and
`df_rank` returns exactly 20 rows ascending. -/
theorem topn_ranking_amended_witness :
    20 ≤ t73.rows.length ∧ (0:ℕ) < 20 ∧
    ((df_table 20 t73).length = 20 ∧
     (df_rank 20 t73).length = 20 ∧
     List.Sorted descRowLe (df_table 20 t73) ∧
     List.Sorted ascRowLe (df_rank 20 t73) ∧
     ∃ r₀ rest, df_table 20 t73 = r₀ :: rest ∧ ∀ r ∈ t73.rows, descRowLe r₀ r) :=
  ⟨by decide, by decide, topn_ranking_amended t73 20 (by decide) (by decide)⟩

/-- C4 counterexample: on a successful three-row load, `df_rank` (line 281
— ascending sort followed by `tail`) starts with a row that is *not* of
maximal volume, so the claimed "descending, highest-volume row first"
ordering is false for the code's ranking. -/
theorem topn_ranking_descending_counterexample : c4Check wEx = some false := by decide

theorem NOMS_ZONES_isSome_iff (id : Int) :
    (alookup NOMS_ZONES id).isSome ↔ 0 ≤ id ∧ id < 5 := by
  simp only [NOMS_ZONES, alookup]
  split_ifs with h0 h1 h2 h3 h4 <;> simp <;> omega

/-- C6 (confirmed): when the cluster column survives into the output, every
row carries the coerced integer id together with the zone name obtained by
looking the id up in `NOMS_ZONES` and defaulting to `"Altres"`; the lookup
succeeds exactly for ids 0–4 (so the sentinel −1 of an unparseable id falls
to `"Altres"`).  When the cluster column is absent every row is labelled
`"General"`. -/
theorem zone_label_assignment (w : World) (t : GeoTable)
    (cen : Option ℚ × Option ℚ) (hok : load_data w = .ok (t, cen)) :
    ∀ r ∈ t.rows,
      ("cluster_kmeans" ∈ t.cols →
        ∃ id : Int, alookup r.cells "cluster_kmeans" = some (.numv (id : ℚ)) ∧
          alookup r.cells "Nom_Zona" = some (.txt (zoneFromId id) none) ∧
          (∀ z, alookup NOMS_ZONES id = some z → zoneFromId id = z) ∧
          (alookup NOMS_ZONES id = none → zoneFromId id = "Altres") ∧
          ((alookup NOMS_ZONES id).isSome ↔ 0 ≤ id ∧ id < 5)) ∧
      ("cluster_kmeans" ∉ t.cols →
        alookup r.cells "Nom_Zona" = some (.txt "General" none)) := by
  obtain ⟨d0, g0, gc, _, _, _, ht, _⟩ := load_data_ok_shape w t cen hok
  set M := leftMerge (addGeoKey g0 gc) (prepMeasures d0) with hM
  have hcolsCN : (coerceNumerics M).cols = M.cols := coerceNumerics_cols M
  have htcols : t.cols = (addZones (coerceNumerics M)).cols := by
    rw [ht, reprojectIfNeeded_cols]
  have hcl : ("cluster_kmeans" ∈ t.cols) ↔ ("cluster_kmeans" ∈ (coerceNumerics M).cols) := by
    rw [htcols, addZones_cols]
    by_cases hz : "Nom_Zona" ∈ (coerceNumerics M).cols
    · simp [hz]
    · simp [hz, List.mem_append]
  intro r hr
  rw [ht, reprojectIfNeeded_rows] at hr
  obtain ⟨r2, hr2, hre⟩ := List.mem_map.mp hr
  rw [addZones_rows] at hr2
  obtain ⟨r1, hr1, hr1e⟩ := List.mem_map.mp hr2
  have hcells : r.cells = zoneCellsFn (coerceNumerics M).cols r1.cells := by
    rw [← hre, reprojRowFn_cells, ← hr1e, zoneRowFn_cells]
  constructor
  · intro hclt
    have hclM : "cluster_kmeans" ∈ (coerceNumerics M).cols := hcl.mp hclt
    obtain ⟨hz, hc⟩ := alookup_zoneCellsFn_zona_present _ r1.cells hclM
    refine ⟨clusterIdOfCell ((alookup r1.cells "cluster_kmeans").getD .na),
      ?_, ?_, ?_, ?_, NOMS_ZONES_isSome_iff _⟩
    · rw [hcells]; exact hc
    · rw [hcells]; exact hz
    · intro z hzz; unfold zoneFromId; rw [hzz]; rfl
    · intro hnone; unfold zoneFromId; rw [hnone]; rfl
  · intro hclt
    have hclM : "cluster_kmeans" ∉ (coerceNumerics M).cols := fun hmm => hclt (hcl.mpr hmm)
    rw [hcells]
    exact alookup_zoneCellsFn_zona_absent _ _ hclM

/-- C6 witness: the first example row carries cluster id 1 and the matching
catalogue name. -/
theorem zone_label_assignment_witness :
    ("cluster_kmeans" ∈ tEx.cols →
      ∃ id : Int, alookup rowEx0.cells "cluster_kmeans" = some (.numv (id : ℚ)) ∧
        alookup rowEx0.cells "Nom_Zona" = some (.txt (zoneFromId id) none) ∧
        (∀ z, alookup NOMS_ZONES id = some z → zoneFromId id = z) ∧
        (alookup NOMS_ZONES id = none → zoneFromId id = "Altres") ∧
        ((alookup NOMS_ZONES id).isSome ↔ 0 ≤ id ∧ id < 5)) ∧
    ("cluster_kmeans" ∉ tEx.cols →
      alookup rowEx0.cells "Nom_Zona" = some (.txt "General" none)) :=
  zone_label_assignment wEx tEx cenEx rfl rowEx0 (by decide)

theorem zoneFromId_mem_allowedZones (id : Int) : zoneFromId id ∈ allowedZones := by
  unfold zoneFromId
  cases hzz : alookup NOMS_ZONES id with
  | none => decide
  | some z =>
    simp only [Option.getD_some]
    exact List.mem_append_left _ (alookup_some_mem_snd _ _ _ hzz)

theorem allowedZones_have_colors : ∀ z ∈ allowedZones, (alookup COLOR_MAP z).isSome := by
  decide

/-- C10 (confirmed): every row of a successfully returned table carries one
of exactly seven zone labels — the five catalogue names, `"Altres"` or
`"General"` — and each of these has an entry in `COLOR_MAP`. -/
theorem zone_labels_closed (w : World) (t : GeoTable)
    (cen : Option ℚ × Option ℚ) (hok : load_data w = .ok (t, cen)) :
    ∀ r ∈ t.rows, ∃ z, alookup r.cells "Nom_Zona" = some (.txt z none) ∧
      z ∈ allowedZones ∧ (alookup COLOR_MAP z).isSome := by
  obtain ⟨d0, g0, gc, _, _, _, ht, _⟩ := load_data_ok_shape w t cen hok
  set M := leftMerge (addGeoKey g0 gc) (prepMeasures d0) with hM
  intro r hr
  rw [ht, reprojectIfNeeded_rows] at hr
  obtain ⟨r2, hr2, hre⟩ := List.mem_map.mp hr
  rw [addZones_rows] at hr2
  obtain ⟨r1, hr1, hr1e⟩ := List.mem_map.mp hr2
  have hcells : r.cells = zoneCellsFn (coerceNumerics M).cols r1.cells := by
    rw [← hre, reprojRowFn_cells, ← hr1e, zoneRowFn_cells]
  by_cases hclM : "cluster_kmeans" ∈ (coerceNumerics M).cols
  · obtain ⟨hz, _⟩ := alookup_zoneCellsFn_zona_present _ r1.cells hclM
    refine ⟨zoneFromId (clusterIdOfCell ((alookup r1.cells "cluster_kmeans").getD .na)),
      ?_, zoneFromId_mem_allowedZones _, allowedZones_have_colors _ (zoneFromId_mem_allowedZones _)⟩
    rw [hcells]; exact hz
  · refine ⟨"General", ?_, by decide, by decide⟩
    rw [hcells]
    exact alookup_zoneCellsFn_zona_absent _ _ hclM

/-- C10 witness: the first example row's label is in the closed set and has
a colour. -/
theorem zone_labels_closed_witness :
    ∃ z, alookup rowEx0.cells "Nom_Zona" = some (.txt z none) ∧
      z ∈ allowedZones ∧ (alookup COLOR_MAP z).isSome :=
  zone_labels_closed wEx tEx cenEx rfl rowEx0 (by decide)

/-- C7 (confirmed): a row's label equals its area name exactly when its
total volume exceeds the 90th percentile of the volume distribution or its
stop count exceeds the 90th percentile of the stop-count distribution
(strict comparisons, pandas linear-interpolation quantile); otherwise the
label is the empty string. -/
theorem label_top_decile (g : GeoTable) (r : GeoRow) (hr : r ∈ g.rows)
    (nm : String) (nv : Option ℚ)
    (hname : alookup r.cells "Nom_Barri" = some (.txt nm nv)) (hne : nm ≠ "") :
    (labelCell g r = .txt nm nv ↔
      (optGTb (toNumOpt ((alookup r.cells "in_total_viajes").getD .na)) (limit_y g) = true ∨
       optGTb (toNumOpt ((alookup r.cells "num_paradas_tmb").getD .na)) (limit_x g) = true)) ∧
    (¬(optGTb (toNumOpt ((alookup r.cells "in_total_viajes").getD .na)) (limit_y g) = true ∨
       optGTb (toNumOpt ((alookup r.cells "num_paradas_tmb").getD .na)) (limit_x g) = true) →
      labelCell g r = .txt "" none) := by
  unfold labelCell
  by_cases hcond :
      (optGTb (toNumOpt ((alookup r.cells "in_total_viajes").getD .na)) (limit_y g)
        || optGTb (toNumOpt ((alookup r.cells "num_paradas_tmb").getD .na)) (limit_x g)) = true
  · rw [if_pos hcond, hname]
    have hor : optGTb (toNumOpt ((alookup r.cells "in_total_viajes").getD .na)) (limit_y g) = true ∨
        optGTb (toNumOpt ((alookup r.cells "num_paradas_tmb").getD .na)) (limit_x g) = true := by
      simpa using hcond
    exact ⟨⟨fun _ => hor, fun _ => rfl⟩, fun hcon => absurd hor hcon⟩
  · rw [if_neg hcond]
    have hnor : ¬(optGTb (toNumOpt ((alookup r.cells "in_total_viajes").getD .na)) (limit_y g) = true ∨
        optGTb (toNumOpt ((alookup r.cells "num_paradas_tmb").getD .na)) (limit_x g) = true) := by
      intro h
      exact hcond (by simpa using h)
    refine ⟨⟨?_, fun hor => absurd hor hnor⟩, fun _ => rfl⟩
    intro he
    exfalso
    injection he with h1 h2
    exact hne h1.symm

/-- C7 witness: in the two-row example the second row's volume (100) exceeds
the 90th percentile (90.1), so its label is its name `"Beta"`. -/
theorem label_top_decile_witness :
    (labelCell g7 g7row = .txt "Beta" none ↔
      (optGTb (toNumOpt ((alookup g7row.cells "in_total_viajes").getD .na)) (limit_y g7) = true ∨
       optGTb (toNumOpt ((alookup g7row.cells "num_paradas_tmb").getD .na)) (limit_x g7) = true)) ∧
    (¬(optGTb (toNumOpt ((alookup g7row.cells "in_total_viajes").getD .na)) (limit_y g7) = true ∨
       optGTb (toNumOpt ((alookup g7row.cells "num_paradas_tmb").getD .na)) (limit_x g7) = true) →
      labelCell g7 g7row = .txt "" none) :=
  label_top_decile g7 g7row (by decide) "Beta" none (by decide) (by decide)

/-- C2 (amended): when no boundary key matches more than one measures row,
every boundary row appears exactly once in the returned table — the output
has exactly one row per boundary row, in order, carrying the same join key.
(In general a boundary row whose key matches k ≥ 1 measures rows appears k
times; see the counterexample.) -/
theorem left_join_exactly_once_of_unique_keys
    (w : World) (d0 : Table) (g0 : GeoTable) (gc : String) (t : GeoTable)
    (cen : Option ℚ × Option ℚ)
    (hcsv : w.csvRead = .ok d0) (hgeo : w.geoRead = .ok g0)
    (hgc : findGeoCol g0 = some gc) (hok : load_data w = .ok (t, cen))
    (huniq : ∀ r ∈ (addGeoKey g0 gc).rows,
      ((prepMeasures d0).rows.filter
          (fun rd => rowKey rd == rowKey r.cells)).length ≤ 1) :
    t.rows.length = g0.rows.length ∧
    ∀ i (hi2 : i < (addGeoKey g0 gc).rows.length) (hi3 : i < t.rows.length),
      alookup (t.rows.get ⟨i, hi3⟩).cells "id_match"
        = alookup ((addGeoKey g0 gc).rows.get ⟨i, hi2⟩).cells "id_match" := by
  obtain ⟨d1, g1, gc1, hcsv1, hgeo1, hgc1, ht, _⟩ := load_data_ok_shape w t cen hok
  rw [hcsv] at hcsv1
  rw [hgeo] at hgeo1
  injection hcsv1 with hd
  injection hgeo1 with hg
  subst hd
  subst hg
  rw [hgc] at hgc1
  injection hgc1 with hgc2
  subst hgc2
  set g2 := addGeoKey g0 gc with hg2
  set d := prepMeasures d0 with hdd
  set M := leftMerge g2 d with hMM
  have hg2len : g2.rows.length = g0.rows.length := by
    rw [hg2]; simp [addGeoKey]
  have hkey : ∀ r2 ∈ g2.rows, ∃ v, alookup r2.cells "id_match" = some v := by
    intro r2 hr2
    rw [hg2] at hr2
    simp only [addGeoKey, List.mem_map] at hr2
    obtain ⟨r0, _, hre⟩ := hr2
    exact ⟨_, by rw [← hre]; exact alookup_setCell_self _ _ _⟩
  have hsing : ∀ r2 ∈ g2.rows, (mergeBlock d.cols d.rows r2).length = 1 := by
    intro r2 hr2
    rw [mergeBlock_length]
    have := huniq r2 hr2
    omega
  have hMrows : M.rows = g2.rows.map
      (fun r2 => (mergeBlock d.cols d.rows r2).headD ⟨.empty, []⟩) := by
    rw [hMM]
    show g2.rows.flatMap (mergeBlock d.cols d.rows) = _
    exact flatMap_eq_map_of_forall_singleton _ _ _ hsing
  have hMlen : M.rows.length = g2.rows.length := by rw [hMrows, List.length_map]
  have hMkey : ∀ i (hiM : i < M.rows.length) (hi2 : i < g2.rows.length),
      alookup (M.rows.get ⟨i, hiM⟩).cells "id_match"
        = alookup (g2.rows.get ⟨i, hi2⟩).cells "id_match" := by
    intro i hiM hi2
    have hget : M.rows.get ⟨i, hiM⟩
        = (mergeBlock d.cols d.rows (g2.rows.get ⟨i, hi2⟩)).headD ⟨.empty, []⟩ := by
      rw [List.get_eq_getElem, List.get_eq_getElem]
      simp only [hMrows, List.getElem_map]
    have h1 := hsing _ (List.get_mem g2.rows i hi2)
    obtain ⟨x, hx⟩ := List.length_eq_one.mp h1
    have hmem : (mergeBlock d.cols d.rows (g2.rows.get ⟨i, hi2⟩)).headD ⟨.empty, []⟩
        ∈ mergeBlock d.cols d.rows (g2.rows.get ⟨i, hi2⟩) := by
      rw [hx]; simp
    obtain ⟨v, hv⟩ := hkey _ (List.get_mem g2.rows i hi2)
    rw [hget, mergeBlock_mem_key d.cols d.rows _ v hv _ hmem, hv]
  have htrows : t.rows = M.rows.map (fun rM =>
      reprojRowFn w.reproj (addZones (coerceNumerics M)).crs
        (zoneRowFn (coerceNumerics M).cols (coerceRowFn M.cols rM))) := by
    rw [ht, reprojectIfNeeded_rows, addZones_rows, coerceNumerics_rows]
    simp [List.map_map, Function.comp]
  have htlen : t.rows.length = M.rows.length := by rw [htrows, List.length_map]
  constructor
  · omega
  · intro i hi2 hi3
    have hiM : i < M.rows.length := by omega
    have hti : t.rows.get ⟨i, hi3⟩
        = reprojRowFn w.reproj (addZones (coerceNumerics M)).crs
            (zoneRowFn (coerceNumerics M).cols (coerceRowFn M.cols (M.rows.get ⟨i, hiM⟩))) := by
      rw [List.get_eq_getElem, List.get_eq_getElem]
      simp only [htrows, List.getElem_map]
    rw [hti, reprojRowFn_cells, zoneRowFn_cells,
      alookup_zoneCellsFn_ne _ _ _ (by decide) (by decide),
      coerceRowFn_cells, alookup_coerceCellsFold_not_mem _ _ _ _ (by decide)]
    exact hMkey i hiM hi2

/-- C2 witness: on the example inputs (unique keys) the three boundary rows
appear exactly once each, in order, with their keys. -/
theorem left_join_exactly_once_witness :
    tEx.rows.length = geoEx.rows.length ∧
    alookup (tEx.rows.get ⟨0, by decide⟩).cells "id_match"
      = alookup ((addGeoKey geoEx "n_barri").rows.get ⟨0, by decide⟩).cells "id_match" := by
  have h := left_join_exactly_once_of_unique_keys wEx csvEx geoEx "n_barri" tEx cenEx
    rfl rfl (by decide) rfl (by decide)
  exact ⟨h.1, h.2 0 (by decide) (by decide)⟩

/-- C2 counterexample: with two measures rows whose keys both normalise to
`"a"`, the single boundary row appears twice in the output (2 rows from 1),
so "every boundary row appears exactly once ... with no uniqueness
assumption on join keys" is false. -/
theorem left_join_duplicates_counterexample :
    c2Check wDup = some false ∧
    (load_data wDup).toOption.map (fun p => p.1.rows.length) = some 2 ∧
    geoOne.rows.length = 1 :=
  ⟨by decide, by decide, by decide⟩

/-- C3 (amended): (A) an expected numeric column absent from both inputs
stays absent from the returned table (it is not created as zero — see the
counterexample); (B) an expected numeric column present in the returned
table holds, in every row, exactly the coercion
`to_numeric(original, errors='coerce').fillna(0)` of the corresponding
merged cell — so every value that fails conversion, and every entry missing
after the merge, is zero, matched rows included; (C) in particular a
boundary row with no matching measures row has value 0 in every
measures-side expected numeric column. -/
theorem expected_numeric_columns_zeroed
    (w : World) (d0 : Table) (g0 : GeoTable) (gc : String) (t : GeoTable)
    (cen : Option ℚ × Option ℚ) (c : String)
    (hcsv : w.csvRead = .ok d0) (hgeo : w.geoRead = .ok g0)
    (hgc : findGeoCol g0 = some gc) (hok : load_data w = .ok (t, cen))
    (hwf : ∀ r ∈ g0.rows, r.cells.map Prod.fst = g0.cols)
    (hc : c ∈ cols_num) :
    (c ∉ g0.cols → c ∉ (prepMeasures d0).cols → c ∉ t.cols) ∧
    (c ∈ t.cols →
      t.rows.length = (leftMerge (addGeoKey g0 gc) (prepMeasures d0)).rows.length ∧
      ∀ i (hiM : i < (leftMerge (addGeoKey g0 gc) (prepMeasures d0)).rows.length)
        (hit : i < t.rows.length),
        alookup (t.rows.get ⟨i, hit⟩).cells c
          = some (.numv ((toNumOpt ((alookup
              ((leftMerge (addGeoKey g0 gc) (prepMeasures d0)).rows.get ⟨i, hiM⟩).cells
                c).getD .na)).getD 0)) ∧
        (toNumOpt ((alookup
              ((leftMerge (addGeoKey g0 gc) (prepMeasures d0)).rows.get ⟨i, hiM⟩).cells
                c).getD .na) = none →
          alookup (t.rows.get ⟨i, hit⟩).cells c = some (.numv 0))) ∧
    (c ∈ t.cols → ∀ r ∈ t.rows,
      (∃ q : ℚ, alookup r.cells c = some (.numv q)) ∧
      (c ∉ g0.cols →
        ((prepMeasures d0).rows.filter
            (fun rd => rowKey rd == rowKey r.cells)).length = 0 →
        alookup r.cells c = some (.numv 0))) := by
  obtain ⟨d1, g1, gc1, hcsv1, hgeo1, hgc1, ht, _⟩ := load_data_ok_shape w t cen hok
  rw [hcsv] at hcsv1
  rw [hgeo] at hgeo1
  injection hcsv1 with hd
  injection hgeo1 with hg
  subst hd
  subst hg
  rw [hgc] at hgc1
  injection hgc1 with hgc2
  subst hgc2
  set g2 := addGeoKey g0 gc with hg2
  set d := prepMeasures d0 with hdd
  set M := leftMerge g2 d with hMM
  have hcid : c ≠ "id_match" := by
    intro h; subst h; exact absurd hc (by decide)
  have hccl : c ≠ "cluster_kmeans" := by
    intro h; subst h; exact absurd hc (by decide)
  have hcnz : c ≠ "Nom_Zona" := by
    intro h; subst h; exact absurd hc (by decide)
  have htc : t.cols = (addZones (coerceNumerics M)).cols := by
    rw [ht, reprojectIfNeeded_cols]
  have hcMof : c ∈ t.cols → c ∈ M.cols := by
    intro hct
    rw [htc, addZones_cols, coerceNumerics_cols] at hct
    by_cases hz : "Nom_Zona" ∈ M.cols
    · rwa [if_pos hz] at hct
    · rw [if_neg hz] at hct
      rcases List.mem_append.mp hct with h | h
      · exact h
      · simp at h
        exact absurd h hcnz
  have hMc : M.cols = g2.cols ++ d.cols.erase "id_match" := by rw [hMM]; rfl
  have htrows : t.rows = M.rows.map (fun rM =>
      reprojRowFn w.reproj (addZones (coerceNumerics M)).crs
        (zoneRowFn (coerceNumerics M).cols (coerceRowFn M.cols rM))) := by
    rw [ht, reprojectIfNeeded_rows, addZones_rows, coerceNumerics_rows]
    simp [List.map_map, Function.comp]
  have htlen : t.rows.length = M.rows.length := by rw [htrows, List.length_map]
  refine ⟨?_, ?_, ?_⟩
  · -- (A) a listed column absent from both inputs is absent from the output
    intro hcg0 hcd hcont
    have hcM := hcMof hcont
    rw [hMc] at hcM
    rcases List.mem_append.mp hcM with h | h
    · rw [hg2] at h
      simp only [addGeoKey] at h
      by_cases hs : "id_match" ∈ g0.cols
      · rw [if_pos hs] at h
        exact hcg0 h
      · rw [if_neg hs] at h
        rcases List.mem_append.mp h with h2 | h2
        · exact hcg0 h2
        · simp at h2
          exact hcid h2
    · exact hcd (List.mem_of_mem_erase h)
  · -- (B) full coercion semantics on every row, matched or not
    intro hct
    have hcM := hcMof hct
    refine ⟨htlen, ?_⟩
    intro i hiM hit
    have hti : t.rows.get ⟨i, hit⟩
        = reprojRowFn w.reproj (addZones (coerceNumerics M)).crs
            (zoneRowFn (coerceNumerics M).cols (coerceRowFn M.cols (M.rows.get ⟨i, hiM⟩))) := by
      rw [List.get_eq_getElem, List.get_eq_getElem]
      simp only [htrows, List.getElem_map]
    have hval : alookup (t.rows.get ⟨i, hit⟩).cells c
        = some (.numv ((toNumOpt ((alookup (M.rows.get ⟨i, hiM⟩).cells c).getD .na)).getD 0)) := by
      rw [hti, reprojRowFn_cells, zoneRowFn_cells, coerceRowFn_cells,
        alookup_zoneCellsFn_ne _ _ _ hccl hcnz,
        alookup_coerceCellsFold_mem _ _ _ _ (by decide) hc hcM]
    refine ⟨hval, ?_⟩
    intro hnone
    rw [hval, hnone]
    rfl
  · -- (C) unmatched boundary rows have the measures-side column equal to 0
    intro hct
    have hcM := hcMof hct
    intro r hr
    rw [htrows] at hr
    obtain ⟨rM, hrM, hre⟩ := List.mem_map.mp hr
    have hcells : r.cells
        = zoneCellsFn (coerceNumerics M).cols (coerceCellsFold M.cols cols_num rM.cells) := by
      rw [← hre, reprojRowFn_cells, zoneRowFn_cells, coerceRowFn_cells]
    have hval : alookup r.cells c
        = some (.numv ((toNumOpt ((alookup rM.cells c).getD .na)).getD 0)) := by
      rw [hcells, alookup_zoneCellsFn_ne _ _ _ hccl hcnz,
        alookup_coerceCellsFold_mem _ _ _ _ (by decide) hc hcM]
    constructor
    · exact ⟨_, hval⟩
    · intro hcg0 hfilter
      have hrM' : rM ∈ g2.rows.flatMap (mergeBlock d.cols d.rows) := hrM
      obtain ⟨rg, hrg, hrb⟩ := List.mem_flatMap.mp hrM'
      have hkeyg : ∃ v, alookup rg.cells "id_match" = some v := by
        rw [hg2] at hrg
        simp only [addGeoKey, List.mem_map] at hrg
        obtain ⟨r0, _, hre0⟩ := hrg
        exact ⟨_, by rw [← hre0]; exact alookup_setCell_self _ _ _⟩
      obtain ⟨v, hv⟩ := hkeyg
      have hkeyrM : alookup rM.cells "id_match" = some v :=
        mergeBlock_mem_key d.cols d.rows rg v hv rM hrb
      have hkeyr : alookup r.cells "id_match" = some v := by
        rw [hcells, alookup_zoneCellsFn_ne _ _ _ (by decide) (by decide),
          alookup_coerceCellsFold_not_mem _ _ _ _ (by decide), hkeyrM]
      have hrowkey : rowKey r.cells = rowKey rg.cells := by
        unfold rowKey
        rw [hkeyr, hv]
      rcases mergeBlock_cases d.cols d.rows rg rM hrb with ⟨hfe, hpad⟩ | ⟨rd, hrdmem, hrdkey, hcomb⟩
      · -- unmatched row: the merge padded the measures-side columns with NaN
        have hrgkeys : c ∉ rg.cells.map Prod.fst := by
          rw [hg2] at hrg
          simp only [addGeoKey, List.mem_map] at hrg
          obtain ⟨r0, hr0, hre0⟩ := hrg
          rw [← hre0]
          show c ∉ (setCell r0.cells "id_match" _).map Prod.fst
          rw [keys_setCell, hwf r0 hr0]
          by_cases hs : (alookup r0.cells "id_match").isSome
          · rw [if_pos hs]; exact hcg0
          · rw [if_neg hs]
            intro hmm
            rcases List.mem_append.mp hmm with h | h
            · exact hcg0 h
            · simp at h
              exact hcid h
        have hnone : alookup rg.cells c = none :=
          alookup_eq_none_of_not_mem_keys _ _ hrgkeys
        have hcr : c ∈ d.cols.erase "id_match" := by
          rw [hMc] at hcM
          rcases List.mem_append.mp hcM with h | h
          · exfalso
            rw [hg2] at h
            simp only [addGeoKey] at h
            by_cases hs : "id_match" ∈ g0.cols
            · rw [if_pos hs] at h; exact hcg0 h
            · rw [if_neg hs] at h
              rcases List.mem_append.mp h with h2 | h2
              · exact hcg0 h2
              · simp at h2
                exact hcid h2
          · exact h
        have hlook_pad : alookup rM.cells c = some Cell.na := by
          rw [hpad]
          show alookup (rg.cells ++ _) c = _
          rw [alookup_append_right _ _ _ hnone]
          exact alookup_pad _ _ hcr
        rw [hval, hlook_pad]
        simp [toNumOpt]
      · -- a matching measures row exists: contradicts the zero-match premise
        exfalso
        have hmemf : rd ∈ d.rows.filter (fun rd => rowKey rd == rowKey r.cells) :=
          List.mem_filter.mpr ⟨hrdmem, by simp [hrdkey, hrowkey]⟩
        rw [List.length_eq_zero] at hfilter
        rw [hfilter] at hmemf
        simp at hmemf

/-- C3 witness: on the example inputs the absent listed column
`presion_tmb` is absent from the output, the coercion of the third row's
merged `in_total_viajes` cell (missing — it fails conversion) is zero, and
the unmatched boundary row has that (present) expected numeric column equal
to zero. -/
theorem expected_numeric_columns_zeroed_witness :
    "presion_tmb" ∉ tEx.cols ∧
    alookup (tEx.rows.get ⟨2, by decide⟩).cells "in_total_viajes" = some (.numv 0) ∧
    (∃ q : ℚ, alookup rowEx2.cells "in_total_viajes" = some (.numv q)) ∧
    alookup rowEx2.cells "in_total_viajes" = some (.numv 0) := by
  have hA := (expected_numeric_columns_zeroed wEx csvEx geoEx "n_barri" tEx cenEx
    "presion_tmb" rfl rfl (by decide) rfl (by decide) (by decide)).1
  have hB := (expected_numeric_columns_zeroed wEx csvEx geoEx "n_barri" tEx cenEx
    "in_total_viajes" rfl rfl (by decide) rfl (by decide) (by decide)).2.1 (by decide)
  have hC := (expected_numeric_columns_zeroed wEx csvEx geoEx "n_barri" tEx cenEx
    "in_total_viajes" rfl rfl (by decide) rfl (by decide) (by decide)).2.2 (by decide)
    rowEx2 (by decide)
  exact ⟨hA (by decide) (by decide),
    (hB.2 2 (by decide) (by decide)).2 (by decide),
    hC.1, hC.2 (by decide) (by decide)⟩

/-- C3 counterexample: with `presion_tmb` (among others) absent from both
input files, the returned table simply lacks that column — it is not
created and "treated as zero" as the claim states. -/
theorem numeric_absent_column_counterexample :
    c3Check wAbs = some false ∧
    (load_data wAbs).toOption.map (fun p => decide ("presion_tmb" ∈ p.1.cols)) = some false :=
  ⟨by decide, by decide⟩

end SmartMove
